import Mathlib

/-!
Verification development for the CalAgent repository: a shallow embedding of
the conversation-history handling (src/app.py, src/main.py), the tool-calling
loop configuration (src/main.py), and the calendar client (src/cal_api.py),
together with theorems settling the specification claims.
-/

namespace CalAgent

/-! ### Conversation history

Embedding of `update_chat_history` (src/app.py lines 153-176) and of the
history-truncation step of the CLI loop in `main` (src/main.py lines 323-329).
Both append one user turn and one assistant turn and then, when the list is
longer than the cap (20 in the UI loop, 10 in the CLI loop), keep only the
last cap entries (`chat_history[-cap:]`). -/

inductive Role where
  | user
  | assistant
deriving DecidableEq

structure ConversationTurn where
  role : Role
  text : String
deriving DecidableEq

/-- Builds one conversation turn. -/
def mkTurn (r : Role) (t : String) : ConversationTurn := ⟨r, t⟩

/-- Embeds the Python update: append the two turns, then truncate to the most
recent `cap` entries when the length exceeds `cap`. -/
def update_chat_history (cap : Nat) (history : List ConversationTurn)
    (userMsg assistantMsg : String) : List ConversationTurn :=
  let h := history ++ [mkTurn Role.user userMsg, mkTurn Role.assistant assistantMsg]
  if h.length > cap then h.drop (h.length - cap) else h

/-! ### Conversation loop

Modelled from the spec: the Conversation Loop itself is executed by the agent
runtime library, whose code is not part of this repository; src/main.py only
configures it (`agent_executor`, lines 250-257, with `max_iterations = 3`).
Per spec section 4.3, the loop submits the scratchpad to the LLM; if the LLM
requests a tool call the tool is executed and the loop repeats, and otherwise
the final answer is returned; on reaching the iteration cap without a final
answer a degraded final answer is returned. -/

inductive LLMStep where
  | toolCall (name args : String)
  | finalAnswer (text : String)

def LLMStep.isToolCall : LLMStep → Bool
  | .toolCall _ _ => true
  | .finalAnswer _ => false

inductive LoopOutcome where
  | final (text : String)
  | stopped
deriving DecidableEq

/-- Modelled from the spec: one run of the bounded tool-calling loop.  Returns
the outcome together with the number of tool-calling iterations executed. -/
def agentLoop (llm : List (String × String) → LLMStep)
    (tools : String → String → String) :
    Nat → List (String × String) → LoopOutcome × Nat
  | 0, _ => (LoopOutcome.stopped, 0)
  | fuel + 1, scratchpad =>
    match llm scratchpad with
    | .finalAnswer t => (LoopOutcome.final t, 0)
    | .toolCall name args =>
      let r := agentLoop llm tools fuel (scratchpad ++ [(name, tools name args)])
      (r.1, r.2 + 1)

/-- The iteration cap configured at src/main.py line 255. -/
def max_iterations : Nat := 3

/-- Modelled from the spec: the executor invoked per user turn, running the
loop with the configured iteration cap and an empty scratchpad. -/
def agent_executor (llm : List (String × String) → LLMStep)
    (tools : String → String → String) : LoopOutcome × Nat :=
  agentLoop llm tools max_iterations []

/-- A mock LLM that requests a tool call on every response. -/
def alwaysToolLLM : List (String × String) → LLMStep :=
  fun _ => LLMStep.toolCall ("list_user_events") ("")

/-- A mock tool executor. -/
def echoTool : String → String → String := fun _ _ => ("[]")

/-! ### Calendar client: listing events

Embedding of `get_scheduled_events` (src/cal_api.py lines 10-78).  The HTTP
layer is modelled as an explicit response value: a successful 2xx response
carries the parsed JSON body (whose `bookings` field may be absent and whose
records have optional fields), while the failure constructors model a non-2xx
status raised by `raise_for_status` (a `RequestException`), a transport
failure (a `RequestException`), and any other malformed-response exception;
all three are caught by the except clauses at lines 70-78 and yield `[]`.
A missing `CAL_API_KEY` (lines 25-27) raises a `ValueError` before the try
block, modelled as the `Except.error` branch. -/

/-- One remote booking record as consumed by the mapping loop; each field is
optional, matching `booking.get(...)` on a JSON object. -/
structure BookingRecord where
  id : Option Int
  title : Option String
  startTime : Option String
  endTime : Option String
  status : Option String
  description : Option String
  location : Option String
deriving DecidableEq

/-- The simplified event dictionary built at lines 56-65. -/
structure Event where
  id : Option Int
  title : String
  start_time : Option String
  end_time : Option String
  status : Option String
  attendee_email : String
  description : String
  location : String
deriving DecidableEq

/-- The field-by-field mapping of one remote record (lines 56-65): missing
title defaults to "Event", missing description to "", missing location to
"TBD", and `attendee_email` is the `user_email` argument. -/
def simplifyBooking (user_email : String) (b : BookingRecord) : Event :=
  { id := b.id
    title := b.title.getD ("Event")
    start_time := b.startTime
    end_time := b.endTime
    status := b.status
    attendee_email := user_email
    description := b.description.getD ("")
    location := b.location.getD ("TBD") }

/-- The possible outcomes of the HTTP GET at line 46 followed by
`raise_for_status` and `response.json()`. -/
inductive ListResponse where
  | ok (bookings : Option (List BookingRecord))
  | httpError (code : Nat)
  | networkError
  | malformed
deriving DecidableEq

def ListResponse.isFailure : ListResponse → Bool
  | .ok _ => false
  | _ => true

/-- Embedding of `get_scheduled_events`: a missing API key raises a
`ValueError` (modelled as `Except.error`); otherwise every response yields a
returned list, with every caught failure yielding the empty list. -/
def get_scheduled_events (apiKey : Option String) (user_email : String)
    (resp : ListResponse) : Except String (List Event) :=
  match apiKey with
  | none => Except.error ("CAL_API_KEY not found in environment variables")
  | some _ =>
    match resp with
    | .ok bookings => Except.ok ((bookings.getD []).map (simplifyBooking user_email))
    | _ => Except.ok []

/-! ### Python datetime model

Embedding of the start-time handling in `book_event` (src/cal_api.py lines
114-121): `datetime.fromisoformat(start_time.replace('Z', '+00:00'))`,
addition of `timedelta(minutes=30)`, and `isoformat().replace('+00:00', 'Z')`.
The datetime is modelled by its calendar fields plus an optional UTC offset in
minutes (`None` for a naive datetime). -/

def isLeapYear (y : Nat) : Bool :=
  (decide (y % 4 = 0) && decide (y % 100 ≠ 0)) || decide (y % 400 = 0)

def daysInMonth (y m : Nat) : Nat :=
  if m = 2 then (if isLeapYear y then 29 else 28)
  else if m = 4 ∨ m = 6 ∨ m = 9 ∨ m = 11 then 30
  else 31

structure PyDateTime where
  year : Nat
  month : Nat
  day : Nat
  hour : Nat
  minute : Nat
  second : Nat
  microsecond : Nat
  utcoffsetMinutes : Option Int
deriving DecidableEq

/-- The range constraints enforced by the `datetime` constructor (and by the
`timezone` constructor for the offset). -/
def PyDateTime.valid (dt : PyDateTime) : Bool :=
  decide (1 ≤ dt.year) && decide (dt.year ≤ 9999) && decide (1 ≤ dt.month) &&
  decide (dt.month ≤ 12) && decide (1 ≤ dt.day) &&
  decide (dt.day ≤ daysInMonth dt.year dt.month) && decide (dt.hour ≤ 23) &&
  decide (dt.minute ≤ 59) && decide (dt.second ≤ 59) &&
  decide (dt.microsecond ≤ 999999) &&
  (match dt.utcoffsetMinutes with
   | none => true
   | some o => decide (-1439 ≤ o) && decide (o ≤ 1439))

/-- The carry chain of the 30-minute addition over minute, hour, day, month
and year, with the time zone unchanged, before the range check. -/
def addMinutes30Raw (dt : PyDateTime) : PyDateTime :=
  let mi := dt.minute + 30
  if mi < 60 then { dt with minute := mi }
  else
    let mi2 := mi - 60
    if dt.hour + 1 < 24 then { dt with minute := mi2, hour := dt.hour + 1 }
    else if dt.day + 1 ≤ daysInMonth dt.year dt.month then
      { dt with minute := mi2, hour := 0, day := dt.day + 1 }
    else if dt.month + 1 ≤ 12 then
      { dt with minute := mi2, hour := 0, day := 1, month := dt.month + 1 }
    else
      { dt with minute := mi2, hour := 0, day := 1, month := 1,
                year := dt.year + 1 }

/-- Adding `timedelta(minutes=30)` to a valid datetime: the carried result
while it stays within `datetime.max` (year 9999), and `none` for the
`OverflowError` the addition raises past that bound. -/
def addMinutes30 (dt : PyDateTime) : Option PyDateTime :=
  if (addMinutes30Raw dt).year ≤ 9999 then some (addMinutes30Raw dt) else none

/-- Days in the months strictly before month `m` of year `y`. -/
def daysBeforeMonth (y : Nat) : Nat → Nat
  | 0 => 0
  | 1 => 0
  | m + 2 => daysBeforeMonth y (m + 1) + daysInMonth y (m + 1)

/-- Leap years strictly before year `y`. -/
def leapsBefore (y : Nat) : Nat := (y - 1) / 4 - (y - 1) / 100 + (y - 1) / 400

/-- Days in the years strictly before year `y` (proleptic Gregorian). -/
def daysBeforeYear (y : Nat) : Nat := 365 * (y - 1) + leapsBefore y

/-- Gregorian ordinal of the date of `dt` (day 1 = 0001-01-01). -/
def toOrdinal (dt : PyDateTime) : Nat :=
  daysBeforeYear dt.year + daysBeforeMonth dt.year dt.month + dt.day

/-- Microseconds represented by the naive calendar fields of `dt`. -/
def naiveMicros (dt : PyDateTime) : Nat :=
  (((toOrdinal dt * 24 + dt.hour) * 60 + dt.minute) * 60 + dt.second) * 1000000
    + dt.microsecond

/-- Microseconds of the instant denoted by `dt`, shifting an aware datetime by
its UTC offset; a naive datetime is taken at face value. -/
def instantMicros (dt : PyDateTime) : Int :=
  (naiveMicros dt : Int) - (dt.utcoffsetMinutes.getD 0) * 60000000

/-! Parsing of ISO-8601 strings, mirroring `datetime.fromisoformat`:
`YYYY-MM-DD`, optionally followed by a separator and `HH:MM`, optionally
`:SS`, optionally a fraction of 3 or 6 digits, optionally a `+HH:MM` or
`-HH:MM` offset.  The parsed fields are then validated like the `datetime`
constructor does. -/

def digitVal (c : Char) : Option Nat :=
  if c.isDigit then some (c.toNat - 48) else none

def parseNDigitsAux : Nat → Nat → List Char → Option (Nat × List Char)
  | 0, acc, cs => some (acc, cs)
  | _ + 1, _, [] => none
  | n + 1, acc, c :: cs =>
    match digitVal c with
    | some d => parseNDigitsAux n (acc * 10 + d) cs
    | none => none

def parseNDigits (n : Nat) (cs : List Char) : Option (Nat × List Char) :=
  parseNDigitsAux n 0 cs

def expectChar (c : Char) : List Char → Option (List Char)
  | x :: cs => if x = c then some cs else none
  | [] => none

def digitsToNat (ds : List Char) : Nat :=
  ds.foldl (fun a c => a * 10 + (c.toNat - 48)) 0

/-- A fraction after the dot: exactly 3 or 6 digits, scaled to microseconds. -/
def parseFrac (cs : List Char) : Option (Nat × List Char) :=
  let ds := cs.takeWhile Char.isDigit
  let rest := cs.drop ds.length
  if ds.length = 3 then some (digitsToNat ds * 1000, rest)
  else if ds.length = 6 then some (digitsToNat ds, rest)
  else none

/-- Optional seconds and fraction after `HH:MM`. -/
def parseSecondsFrac (cs : List Char) : Option (Nat × Nat × List Char) :=
  match cs with
  | ':' :: rest =>
    match parseNDigits 2 rest with
    | none => none
    | some (ss, cs1) =>
      match cs1 with
      | '.' :: rest2 =>
        match parseFrac rest2 with
        | none => none
        | some (us, cs2) => some (ss, us, cs2)
      | other => some (ss, 0, other)
  | other => some (0, 0, other)

def parseOffsetHM (cs : List Char) : Option (Int × List Char) :=
  match parseNDigits 2 cs with
  | none => none
  | some (oh, cs1) =>
    match expectChar (':') cs1 with
    | none => none
    | some cs2 =>
      match parseNDigits 2 cs2 with
      | none => none
      | some (om, cs3) =>
        if om ≤ 59 then some (((oh * 60 + om : Nat) : Int), cs3) else none

def parseOffset (cs : List Char) : Option (Option Int × List Char) :=
  match cs with
  | '+' :: rest => (parseOffsetHM rest).map (fun p => (some p.1, p.2))
  | '-' :: rest => (parseOffsetHM rest).map (fun p => (some (-p.1), p.2))
  | other => some (none, other)

/-- Structural parse of the ISO string into raw fields. -/
def rawParseISO (cs : List Char) : Option PyDateTime :=
  match parseNDigits 4 cs with
  | none => none
  | some (y, cs1) =>
  match expectChar ('-') cs1 with
  | none => none
  | some cs2 =>
  match parseNDigits 2 cs2 with
  | none => none
  | some (mo, cs3) =>
  match expectChar ('-') cs3 with
  | none => none
  | some cs4 =>
  match parseNDigits 2 cs4 with
  | none => none
  | some (d, cs5) =>
  match cs5 with
  | [] => some ⟨y, mo, d, 0, 0, 0, 0, none⟩
  | sep :: rest =>
    if sep = 'T' ∨ sep = ' ' then
      match parseNDigits 2 rest with
      | none => none
      | some (hh, cs6) =>
      match expectChar (':') cs6 with
      | none => none
      | some cs7 =>
      match parseNDigits 2 cs7 with
      | none => none
      | some (mi, cs8) =>
      match parseSecondsFrac cs8 with
      | none => none
      | some (ss, us, cs9) =>
      match parseOffset cs9 with
      | none => none
      | some (off, cs10) =>
        if cs10.isEmpty then some ⟨y, mo, d, hh, mi, ss, us, off⟩ else none
    else none

/-- The range validation done by the `datetime` constructor. -/
def validateDT (dt : PyDateTime) : Option PyDateTime :=
  if dt.valid then some dt else none

/-- Embedding of `datetime.fromisoformat`. -/
def fromisoformat (s : String) : Option PyDateTime :=
  (rawParseISO s.data).bind validateDT

/-- Zero-pads a natural number to width `w`. -/
def padNum (w n : Nat) : String :=
  let s := toString n
  String.mk (List.replicate (w - s.length) ('0')) ++ s

/-- Embedding of `datetime.isoformat`: date, time, fraction when nonzero, and
the UTC offset as a signed `HH:MM` suffix for an aware datetime. -/
def isoformat (dt : PyDateTime) : String :=
  let offStr :=
    match dt.utcoffsetMinutes with
    | none => ""
    | some o =>
      if o < 0 then
        "-" ++ padNum 2 ((-o).toNat / 60) ++ ":" ++ padNum 2 ((-o).toNat % 60)
      else
        "+" ++ padNum 2 (o.toNat / 60) ++ ":" ++ padNum 2 (o.toNat % 60)
  padNum 4 dt.year ++ "-" ++ padNum 2 dt.month ++ "-" ++ padNum 2 dt.day ++
    "T" ++ padNum 2 dt.hour ++ ":" ++ padNum 2 dt.minute ++ ":" ++
    padNum 2 dt.second ++
    (if dt.microsecond = 0 then "" else "." ++ padNum 6 dt.microsecond) ++
    offStr

/-! Python's `str.replace`, replacing every non-overlapping occurrence from
the left. -/

def replaceAllAux (pat repl : List Char) : Nat → List Char → List Char
  | 0, l => l
  | _ + 1, [] => []
  | fuel + 1, c :: cs =>
    if pat.isEmpty = false && pat.isPrefixOf (c :: cs) then
      repl ++ replaceAllAux pat repl fuel ((c :: cs).drop pat.length)
    else
      c :: replaceAllAux pat repl fuel cs

/-- Embedding of `str.replace(old, new)`. -/
def pyReplace (s old new : String) : String :=
  String.mk (replaceAllAux old.data new.data s.data.length s.data)

/-- The end-time computation of `book_event` (lines 116-121): replace a `Z`
suffix by `+00:00`, parse, add 30 minutes, render, and replace `+00:00` back
by `Z`.  `none` models the `Invalid start time format` early return, reached
both when `fromisoformat` raises a `ValueError` and when the addition raises
an `OverflowError` past `datetime.max`; the `except Exception` at line 120
catches either. -/
def computeEndTime (start_time : String) : Option String :=
  match fromisoformat (pyReplace start_time ("Z") ("+00:00")) with
  | none => none
  | some dt =>
    match addMinutes30 dt with
    | none => none
    | some e => some (pyReplace (isoformat e) ("+00:00") ("Z"))

/-! Arithmetic facts about the calendar model, used to show that the carry
chain of `addMinutes30Raw` advances the denoted instant by exactly 30
minutes. -/

/-! ### Substring containment and Python `int()`

`"needle" in haystack` on Python strings, and `int(s)` parsing used by
`cancel_calendar_booking` (src/main.py lines 131-135). -/

def listContains (pat : List Char) : List Char → Bool
  | [] => pat.isEmpty
  | c :: cs => pat.isPrefixOf (c :: cs) || listContains pat cs

/-- Embedding of the Python substring test `pat in s`. -/
def containsSubstr (s pat : String) : Bool := listContains pat.data s.data

/-- Embedding of `int(s)` digit parsing with single underscores allowed
between digits. -/
def digitsValAux : Nat → List Char → Option Nat
  | acc, [] => some acc
  | acc, c :: cs =>
    if c.isDigit then digitsValAux (acc * 10 + (c.toNat - 48)) cs
    else if c = '_' then
      match cs with
      | d :: cs2 =>
        if d.isDigit then digitsValAux (acc * 10 + (d.toNat - 48)) cs2 else none
      | [] => none
    else none

def digitsVal : List Char → Option Nat
  | [] => none
  | c :: cs => if c.isDigit then digitsValAux (c.toNat - 48) cs else none

def stripEdgeWs (cs : List Char) : List Char :=
  ((cs.dropWhile Char.isWhitespace).reverse.dropWhile Char.isWhitespace).reverse

/-- Embedding of Python `int(s)`: optional surrounding whitespace, an optional
sign, then digits; `none` models the raised `ValueError`. -/
def pyInt (s : String) : Option Int :=
  match stripEdgeWs s.data with
  | [] => none
  | '+' :: rest => (digitsVal rest).map (fun n => (n : Int))
  | '-' :: rest => (digitsVal rest).map (fun n => -(n : Int))
  | cs => (digitsVal cs).map (fun n => (n : Int))

/-! ### Calendar client: booking

Embedding of `book_event` (src/cal_api.py lines 81-175).  The HTTP POST is
modelled by an explicit response value; the result records the user-facing
string together with the payload sent (or `none` when the function returned
before issuing the request), and a separate constructor models an uncaught
exception. -/

inductive JsonBody where
  | parsed (message : Option String)
  | parseFail
deriving DecidableEq

inductive BookResponse where
  | success (id : Option Int)
  | httpError (code : Nat) (excText : String) (body : JsonBody)
  | networkError (excText : String)
deriving DecidableEq

/-- The outgoing request body built at lines 124-138. -/
structure BookingPayload where
  eventTypeId : Int
  start : String
  endTime : String
  name : String
  email : String
  timeZone : String
  language : String
  title : String
  description : String
  status : String
deriving DecidableEq

inductive BookResult where
  | returns (msg : String) (sent : Option BookingPayload)
  | raises (exc : String)
deriving DecidableEq

def BookResult.sent : BookResult → Option BookingPayload
  | .returns _ p => p
  | .raises _ => none

/-- The attendee display name of line 112: local part of the email with dots
replaced by spaces, then `str.title()`. -/
def pyTitleAux : Bool → List Char → List Char
  | _, [] => []
  | prevAlpha, c :: cs =>
    if c.isAlpha then
      (if prevAlpha then c.toLower else c.toUpper) :: pyTitleAux true cs
    else c :: pyTitleAux false cs

def attendeeName (email : String) : String :=
  let localPart := email.data.takeWhile (fun c => c ≠ '@')
  let spaced := localPart.map (fun c => if c = '.' then ' ' else c)
  String.mk (pyTitleAux false spaced)

/-- The special-cased 400 message of line 159, attributing the busy slot to
the calendar owner addressed as "You". -/
def ownerBusyMsg : String :=
  "\u274C Booking failed: You are not available at this time slot. Please choose a different time when you\x27re free."

/-- The status-code dispatch of the `HTTPError` handler (lines 151-169). -/
def bookHTTPErrorMsg (code : Nat) (excText : String) (body : JsonBody) : String :=
  if code = 400 then
    match body with
    | .parseFail => "\u274C Booking failed: Bad request"
    | .parsed m =>
      let error_detail := m.getD ("Bad request")
      if containsSubstr error_detail ("no_available_users_found_error") then
        ownerBusyMsg
      else "\u274C Booking failed: " ++ error_detail
  else if code = 401 then
    "\u274C Booking failed: Invalid API key or unauthorized access"
  else if code = 404 then
    "\u274C Booking failed: Event type not found. Check your CAL_EVENT_TYPE_ID"
  else "\u274C Booking failed: HTTP " ++ toString code ++ " - " ++ excText

/-- Embedding of `book_event`.  Note that no comparison with the current time
occurs anywhere: once the environment is configured and the end-time try
block succeeds (parse and in-range addition), the request is sent. -/
def book_event (apiKey event_type_id : Option String)
    (start_time user_email event_title : String) (resp : BookResponse) :
    BookResult :=
  match apiKey with
  | none => .returns ("Error: CAL_API_KEY not found in environment variables") none
  | some _ =>
  match event_type_id with
  | none => .returns ("Error: CAL_EVENT_TYPE_ID not found in environment variables") none
  | some tid =>
  match computeEndTime start_time with
  | none => .returns ("\u274C Booking failed: Invalid start time format") none
  | some end_time =>
  match pyInt tid with
  | none => .raises ("ValueError: invalid literal for int() with base 10")
  | some tidInt =>
  let payload : BookingPayload :=
    { eventTypeId := tidInt, start := start_time, endTime := end_time,
      name := attendeeName user_email, email := user_email,
      timeZone := "UTC", language := "en", title := event_title,
      description := "Booked via API: " ++ event_title, status := "PENDING" }
  match resp with
  | .success id =>
    .returns ("\u2705 Event \x27" ++ event_title ++
      "\x27 successfully booked! Booking ID: " ++
      (match id with | some i => toString i | none => "Unknown") ++
      ", Start time: " ++ start_time) (some payload)
  | .httpError code excText body =>
    .returns (bookHTTPErrorMsg code excText body) (some payload)
  | .networkError excText =>
    .returns ("\u274C Booking failed: Network error - " ++ excText) (some payload)

/-! ### Calendar client: cancellation

Embedding of `cancel_event` (src/cal_api.py lines 178-228) and of the tool
wrapper `cancel_calendar_booking` (src/main.py lines 93-137).  The second
component of the result counts the network requests issued. -/

inductive CancelResponse where
  | success
  | httpError (code : Nat) (excText : String) (body : JsonBody)
  | networkError (excText : String)
deriving DecidableEq

inductive CancelResult where
  | returns (msg : String)
  | raises (exc : String)
deriving DecidableEq

/-- The status-code dispatch of the cancellation `HTTPError` handler (lines
215-224); a 400 whose body fails to parse raises out of the handler. -/
def cancelHTTPErrorMsg (booking_id : Int) (code : Nat) (excText : String)
    (body : JsonBody) : CancelResult :=
  if code = 400 then
    match body with
    | .parsed m => .returns ("\u274C Cancellation failed: " ++ m.getD ("Bad request"))
    | .parseFail => .raises ("JSONDecodeError")
  else if code = 401 then
    .returns ("\u274C Cancellation failed: Invalid API key or unauthorized access")
  else if code = 404 then
    .returns ("\u274C Cancellation failed: Booking " ++ toString booking_id ++
      " not found")
  else
    .returns ("\u274C Cancellation failed: HTTP " ++ toString code ++ " - " ++
      excText)

/-- Embedding of `cancel_event`. -/
def cancel_event (apiKey : Option String) (booking_id : Int)
    (cancellation_reason : String) (resp : CancelResponse) :
    CancelResult × Nat :=
  match apiKey with
  | none => (.returns ("Error: CAL_API_KEY not found in environment variables"), 0)
  | some _ =>
    match resp with
    | .success =>
      (.returns ("\u2705 Booking " ++ toString booking_id ++
        " successfully cancelled. Reason: " ++ cancellation_reason), 1)
    | .httpError code excText body =>
      (cancelHTTPErrorMsg booking_id code excText body, 1)
    | .networkError excText =>
      (.returns ("\u274C Cancellation failed: Network error - " ++ excText), 1)

/-- Embedding of the tool wrapper `cancel_calendar_booking`: validate the
identifier with `int(...)` and return the invalid-id message without any
network call on failure, otherwise delegate to `cancel_event`. -/
def cancel_calendar_booking (apiKey : Option String)
    (booking_identifier cancellation_reason : String) (resp : CancelResponse) :
    CancelResult × Nat :=
  match pyInt booking_identifier with
  | none =>
    (.returns ("\u274C Invalid booking ID: \x27" ++ booking_identifier ++
      "\x27. Please provide a valid numeric booking ID."), 0)
  | some id => cancel_event apiKey id cancellation_reason resp

/-- The textual time-zone suffix of an ISO-8601 string: a trailing `Z`, a
trailing signed `HH:MM` offset, or nothing (naive). -/
def zoneSuffix (s : String) : String :=
  let cs := s.data
  if cs.getLast? = some ('Z') then "Z"
  else
    match cs.drop (cs.length - 6) with
    | c :: rest => if c = '+' ∨ c = '-' then String.mk (c :: rest) else ""
    | [] => ""

/-! ### Supporting lemmas and claim theorems -/

theorem update_chat_history_spec (cap : Nat) (history : List ConversationTurn)
    (u a : String) :
    (update_chat_history cap history u a).length ≤ cap ∧
    update_chat_history cap history u a =
      (history ++ [mkTurn Role.user u, mkTurn Role.assistant a]).drop
        ((history.length + 2) - cap) ∧
    (update_chat_history cap history u a) <:+
      (history ++ [mkTurn Role.user u, mkTurn Role.assistant a]) := by
  unfold update_chat_history
  set L := history ++ [mkTurn Role.user u, mkTurn Role.assistant a] with hL
  have hlen : L.length = history.length + 2 := by
    simp [hL]
  by_cases hc : L.length > cap
  · rw [if_pos hc]
    refine ⟨?_, ?_, ?_⟩
    · rw [List.length_drop]
      omega
    · rw [hlen]
    · exact List.drop_suffix _ _
  · rw [if_neg hc]
    refine ⟨by omega, ?_, List.suffix_refl _⟩
    have : history.length + 2 - cap = 0 := by omega
    rw [this, List.drop_zero]

theorem agentLoop_count_le (llm : List (String × String) → LLMStep)
    (tools : String → String → String) :
    ∀ fuel scratchpad, (agentLoop llm tools fuel scratchpad).2 ≤ fuel := by
  intro fuel
  induction fuel with
  | zero => intro sp; simp [agentLoop]
  | succ n ih =>
    intro sp
    simp only [agentLoop]
    cases llm sp with
    | finalAnswer t => simp
    | toolCall name args =>
      simp only []
      have := ih (sp ++ [(name, tools name args)])
      omega

theorem agentLoop_always_tool (llm : List (String × String) → LLMStep)
    (tools : String → String → String)
    (h : ∀ sp, (llm sp).isToolCall = true) :
    ∀ fuel scratchpad,
      agentLoop llm tools fuel scratchpad = (LoopOutcome.stopped, fuel) := by
  intro fuel
  induction fuel with
  | zero => intro sp; simp [agentLoop]
  | succ n ih =>
    intro sp
    simp only [agentLoop]
    cases hs : llm sp with
    | finalAnswer t =>
      have := h sp
      rw [hs] at this
      simp [LLMStep.isToolCall] at this
    | toolCall name args =>
      simp only []
      rw [ih (sp ++ [(name, tools name args)])]

/-- C3: the Conversation Loop always terminates within the iteration cap of 3:
for every LLM behaviour the executor performs at most `max_iterations = 3`
tool-calling iterations, and an LLM that requests a tool call on every
response yields the degraded outcome after exactly 3 iterations. -/
theorem agent_executor_iteration_cap (llm : List (String × String) → LLMStep)
    (tools : String → String → String) :
    (agent_executor llm tools).2 ≤ max_iterations ∧
    ((∀ sp, (llm sp).isToolCall = true) →
      agent_executor llm tools = (LoopOutcome.stopped, max_iterations)) := by
  constructor
  · exact agentLoop_count_le llm tools max_iterations []
  · intro h
    exact agentLoop_always_tool llm tools h max_iterations []

/-- Witness for C3 at a concrete always-tool-calling LLM. -/
theorem agent_executor_iteration_cap_witness :
    (agent_executor alwaysToolLLM echoTool).2 ≤ max_iterations ∧
    agent_executor alwaysToolLLM echoTool = (LoopOutcome.stopped, max_iterations) := by
  have h := agent_executor_iteration_cap alwaysToolLLM echoTool
  exact ⟨h.1, h.2 (fun sp => rfl)⟩

/-- C2: with the API key configured, `get_scheduled_events` never raises to
its caller, and on any transport failure, authorization failure (a non-2xx
status such as 401), or malformed response it returns the empty sequence. -/
theorem get_scheduled_events_never_raises (k user_email : String) :
    (∀ resp : ListResponse, ∃ evs,
      get_scheduled_events (some k) user_email resp = Except.ok evs) ∧
    (∀ code : Nat,
      get_scheduled_events (some k) user_email (ListResponse.httpError code) =
        Except.ok []) ∧
    get_scheduled_events (some k) user_email ListResponse.networkError =
      Except.ok [] ∧
    get_scheduled_events (some k) user_email ListResponse.malformed =
      Except.ok [] ∧
    (∀ resp : ListResponse, resp.isFailure = true →
      get_scheduled_events (some k) user_email resp = Except.ok []) := by
  refine ⟨?_, ?_, rfl, rfl, ?_⟩
  · intro resp
    cases resp <;> exact ⟨_, rfl⟩
  · intro code
    rfl
  · intro resp h
    cases resp with
    | ok bookings => simp [ListResponse.isFailure] at h
    | httpError code => rfl
    | networkError => rfl
    | malformed => rfl

/-- Witness for C2 at a concrete failing response. -/
theorem get_scheduled_events_never_raises_witness :
    get_scheduled_events (some ("k")) ("song.wd@icloud.com")
        ListResponse.networkError = Except.ok [] ∧
    get_scheduled_events (some ("k")) ("song.wd@icloud.com")
        (ListResponse.httpError 401) = Except.ok [] :=
  ⟨(get_scheduled_events_never_raises ("k") ("song.wd@icloud.com")).2.2.1,
   (get_scheduled_events_never_raises ("k") ("song.wd@icloud.com")).2.2.2.2
     (ListResponse.httpError 401) rfl⟩

/-- C7: a successful remote list response with N records yields exactly N
events, each record mapped field-by-field with the defaulting rule; records
with a missing title, description or location get "Event", "" and "TBD". -/
theorem get_scheduled_events_mapping (k user_email : String)
    (records : List BookingRecord) :
    get_scheduled_events (some k) user_email (ListResponse.ok (some records)) =
      Except.ok (records.map (simplifyBooking user_email)) ∧
    (records.map (simplifyBooking user_email)).length = records.length ∧
    (∀ b : BookingRecord,
      (simplifyBooking user_email b).id = b.id ∧
      (simplifyBooking user_email b).title = b.title.getD ("Event") ∧
      (simplifyBooking user_email b).start_time = b.startTime ∧
      (simplifyBooking user_email b).end_time = b.endTime ∧
      (simplifyBooking user_email b).status = b.status ∧
      (simplifyBooking user_email b).description = b.description.getD ("") ∧
      (simplifyBooking user_email b).location = b.location.getD ("TBD")) ∧
    (∀ b : BookingRecord,
      (simplifyBooking user_email { b with title := none }).title = "Event" ∧
      (simplifyBooking user_email { b with description := none }).description = "" ∧
      (simplifyBooking user_email { b with location := none }).location = "TBD") := by
  refine ⟨rfl, List.length_map _ _, ?_, ?_⟩
  · intro b
    exact ⟨rfl, rfl, rfl, rfl, rfl, rfl, rfl⟩
  · intro b
    exact ⟨rfl, rfl, rfl⟩

/-- C10: every event returned from a successful list response carries the
`user_email` argument as its `attendee_email`, for every remote record list. -/
theorem get_scheduled_events_attendee_email (k user_email : String)
    (records : List BookingRecord) :
    ∃ evs,
      get_scheduled_events (some k) user_email (ListResponse.ok (some records)) =
        Except.ok evs ∧
      evs.all (fun ev => ev.attendee_email == user_email) = true := by
  refine ⟨records.map (simplifyBooking user_email), rfl, ?_⟩
  rw [List.all_eq_true]
  intro ev hev
  rw [List.mem_map] at hev
  obtain ⟨b, hb, rfl⟩ := hev
  simp [simplifyBooking]

theorem daysBeforeMonth_succ (y m : Nat) (h : 1 ≤ m) :
    daysBeforeMonth y (m + 1) = daysBeforeMonth y m + daysInMonth y m := by
  match m, h with
  | k + 1, _ => rfl

theorem daysBeforeYear_succ (y : Nat) (h : 1 ≤ y) :
    daysBeforeYear (y + 1) =
      daysBeforeYear y + (if isLeapYear y then 366 else 365) := by
  have hiff : isLeapYear y = true ↔ ((y % 4 = 0 ∧ y % 100 ≠ 0) ∨ y % 400 = 0) := by
    simp [isLeapYear]
  by_cases hl : isLeapYear y = true
  · rw [if_pos hl]
    rw [hiff] at hl
    simp only [daysBeforeYear, leapsBefore]
    omega
  · rw [if_neg hl]
    rw [hiff] at hl
    simp only [daysBeforeYear, leapsBefore]
    omega

theorem daysBeforeMonth_twelve (y : Nat) :
    daysBeforeMonth y 12 = if isLeapYear y then 335 else 334 := by
  by_cases hl : isLeapYear y = true
  · simp [daysBeforeMonth, daysInMonth, hl]
  · simp [daysBeforeMonth, daysInMonth, hl]

theorem valid_bounds (dt : PyDateTime) (h : dt.valid = true) :
    1 ≤ dt.year ∧ dt.year ≤ 9999 ∧ 1 ≤ dt.month ∧ dt.month ≤ 12 ∧
    1 ≤ dt.day ∧ dt.day ≤ daysInMonth dt.year dt.month ∧ dt.hour ≤ 23 ∧
    dt.minute ≤ 59 ∧ dt.second ≤ 59 ∧ dt.microsecond ≤ 999999 := by
  simp only [PyDateTime.valid, Bool.and_eq_true, decide_eq_true_eq] at h
  exact ⟨h.1.1.1.1.1.1.1.1.1.1, h.1.1.1.1.1.1.1.1.1.2, h.1.1.1.1.1.1.1.1.2,
    h.1.1.1.1.1.1.1.2, h.1.1.1.1.1.1.2, h.1.1.1.1.1.2, h.1.1.1.1.2,
    h.1.1.1.2, h.1.1.2, h.1.2⟩

/-- The carry chain `addMinutes30Raw` advances the naive calendar value by
exactly 30 minutes and leaves the time zone unchanged. -/
theorem addMinutes30Raw_spec (dt : PyDateTime) (h : dt.valid = true) :
    naiveMicros (addMinutes30Raw dt) = naiveMicros dt + 1800000000 ∧
    (addMinutes30Raw dt).utcoffsetMinutes = dt.utcoffsetMinutes := by
  obtain ⟨hy1, hy2, hm1, hm2, hd1, hd2, hh, hmi, hs, hus⟩ := valid_bounds dt h
  unfold addMinutes30Raw
  by_cases c1 : dt.minute + 30 < 60
  · rw [if_pos c1]
    refine ⟨?_, rfl⟩
    simp only [naiveMicros, toOrdinal]
    omega
  · rw [if_neg c1]
    by_cases c2 : dt.hour + 1 < 24
    · rw [if_pos c2]
      refine ⟨?_, rfl⟩
      simp only [naiveMicros, toOrdinal]
      omega
    · rw [if_neg c2]
      by_cases c3 : dt.day + 1 ≤ daysInMonth dt.year dt.month
      · rw [if_pos c3]
        refine ⟨?_, rfl⟩
        simp only [naiveMicros, toOrdinal]
        omega
      · rw [if_neg c3]
        by_cases c4 : dt.month + 1 ≤ 12
        · rw [if_pos c4]
          refine ⟨?_, rfl⟩
          simp only [naiveMicros, toOrdinal]
          rw [daysBeforeMonth_succ dt.year dt.month hm1]
          omega
        · rw [if_neg c4]
          refine ⟨?_, rfl⟩
          have hm12 : dt.month = 12 := by omega
          have hdim : daysInMonth dt.year 12 = 31 := rfl
          simp only [naiveMicros, toOrdinal]
          rw [daysBeforeYear_succ dt.year hy1]
          rw [hm12] at hd2 c3 ⊢
          rw [hdim] at hd2 c3
          rw [daysBeforeMonth_twelve dt.year]
          have hbm1 : daysBeforeMonth (dt.year + 1) 1 = 0 := rfl
          rw [hbm1]
          by_cases hl : isLeapYear dt.year = true
          · rw [if_pos hl, if_pos hl]
            omega
          · rw [if_neg hl, if_neg hl]
            omega

/-- When the range-checked addition succeeds, its result is exactly 30
minutes after the input, with the time zone unchanged. -/
theorem addMinutes30_some_spec (dt r : PyDateTime) (hv : dt.valid = true)
    (h : addMinutes30 dt = some r) :
    naiveMicros r = naiveMicros dt + 1800000000 ∧
    r.utcoffsetMinutes = dt.utcoffsetMinutes := by
  unfold addMinutes30 at h
  by_cases hy : (addMinutes30Raw dt).year ≤ 9999
  · rw [if_pos hy] at h
    cases h
    exact addMinutes30Raw_spec dt hv
  · rw [if_neg hy] at h
    simp at h

/-- A datetime produced by `fromisoformat` passed the constructor checks. -/
theorem fromisoformat_valid (s : String) (dt : PyDateTime)
    (h : fromisoformat s = some dt) : dt.valid = true := by
  unfold fromisoformat at h
  cases hr : rawParseISO s.data with
  | none => rw [hr] at h; simp at h
  | some dt0 =>
    rw [hr] at h
    simp only [Option.some_bind, validateDT] at h
    by_cases hv : dt0.valid = true
    · rw [if_pos hv] at h
      cases h
      exact hv
    · rw [if_neg hv] at h
      simp at h

theorem isPrefixOf_self_append (l suf : List Char) :
    l.isPrefixOf (l ++ suf) = true := by
  induction l with
  | nil => simp [List.isPrefixOf]
  | cons c cs ih => simp [List.isPrefixOf, ih]

theorem listContains_nil_pat (l : List Char) : listContains [] l = true := by
  induction l with
  | nil => rfl
  | cons c cs ih => simp [listContains, List.isPrefixOf]

theorem listContains_append (pre pat suf : List Char) :
    listContains pat (pre ++ pat ++ suf) = true := by
  induction pre with
  | nil =>
    cases pat with
    | nil => exact listContains_nil_pat suf
    | cons c cs =>
      simp only [List.nil_append, List.cons_append, listContains,
        Bool.or_eq_true]
      exact Or.inl (isPrefixOf_self_append (c :: cs) suf)
  | cons c cs ih =>
    simp only [List.cons_append, listContains, Bool.or_eq_true]
    exact Or.inr ih

theorem containsSubstr_middle (pre pat suf : String) :
    containsSubstr (pre ++ pat ++ suf) pat = true := by
  unfold containsSubstr
  have hd : (pre ++ pat ++ suf).data = pre.data ++ pat.data ++ suf.data := by
    simp
  rw [hd]
  exact listContains_append pre.data pat.data suf.data

/-- Writes `containsSubstr` via an explicit decomposition of the haystack. -/
theorem containsSubstr_of_data (s pat : String) (pre suf : List Char)
    (h : s.data = pre ++ pat.data ++ suf) : containsSubstr s pat = true := by
  unfold containsSubstr
  rw [h]
  exact listContains_append pre pat.data suf

/-- C1: every history update stays within the cap (20 for the UI loop, 10 for
the CLI loop); when the cap would be exceeded exactly the most recent cap
entries are kept, in their original order (a suffix of the appended list,
dropping the oldest entries first). -/
theorem conversation_history_cap (history : List ConversationTurn)
    (u a : String) :
    ((update_chat_history 20 history u a).length ≤ 20 ∧
      update_chat_history 20 history u a =
        (history ++ [mkTurn Role.user u, mkTurn Role.assistant a]).drop
          ((history.length + 2) - 20) ∧
      (update_chat_history 20 history u a) <:+
        (history ++ [mkTurn Role.user u, mkTurn Role.assistant a])) ∧
    ((update_chat_history 10 history u a).length ≤ 10 ∧
      update_chat_history 10 history u a =
        (history ++ [mkTurn Role.user u, mkTurn Role.assistant a]).drop
          ((history.length + 2) - 10) ∧
      (update_chat_history 10 history u a) <:+
        (history ++ [mkTurn Role.user u, mkTurn Role.assistant a])) :=
  ⟨update_chat_history_spec 20 history u a, update_chat_history_spec 10 history u a⟩

/-- C4 counterexample: the start time `2025-07-11T14:00:00+00:00` is
parseable ISO-8601, yet the payload end time is written with a `Z` suffix
while the payload start keeps its explicit `+00:00` offset, so the end time
is not in the same zone representation as the start; and the parseable start
time `9999-12-31T23:45:00Z` gets no end time at all, since the 30-minute
addition overflows `datetime.max` and `book_event` returns the
invalid-start-time message without sending anything. -/
theorem book_event_zone_repr_counterexample :
    computeEndTime ("2025-07-11T14:00:00+00:00") =
      some ("2025-07-11T14:30:00Z") ∧
    zoneSuffix ("2025-07-11T14:00:00+00:00") = "+00:00" ∧
    zoneSuffix ("2025-07-11T14:30:00Z") = "Z" ∧
    (zoneSuffix ("2025-07-11T14:00:00+00:00") ==
      zoneSuffix ("2025-07-11T14:30:00Z")) = false ∧
    (book_event (some ("k")) (some ("42")) ("2025-07-11T14:00:00+00:00")
        ("a@b.com") ("Sync") (BookResponse.success (some 1))).sent =
      some { eventTypeId := 42, start := "2025-07-11T14:00:00+00:00",
             endTime := "2025-07-11T14:30:00Z", name := "A", email := "a@b.com",
             timeZone := "UTC", language := "en", title := "Sync",
             description := "Booked via API: Sync", status := "PENDING" } ∧
    fromisoformat (pyReplace ("9999-12-31T23:45:00Z") ("Z") ("+00:00")) =
      some ⟨9999, 12, 31, 23, 45, 0, 0, some 0⟩ ∧
    computeEndTime ("9999-12-31T23:45:00Z") = none ∧
    book_event (some ("k")) (some ("42")) ("9999-12-31T23:45:00Z") ("a@b.com")
        ("Sync") (BookResponse.success (some 1)) =
      BookResult.returns ("\u274C Booking failed: Invalid start time format")
        none := by
  refine ⟨by decide, by decide, by decide, by decide, by decide, by decide,
    by decide, by decide⟩

/-- Shape of the booking result when the environment is configured and the
end-time computation succeeds: the request is sent with the derived payload. -/
theorem book_event_sent_payload (k tid start email title : String)
    (resp : BookResponse) (endt : String) (tidInt : Int)
    (hce : computeEndTime start = some endt)
    (hti : pyInt tid = some tidInt) :
    (book_event (some k) (some tid) start email title resp).sent =
      some { eventTypeId := tidInt, start := start, endTime := endt,
             name := attendeeName email, email := email, timeZone := "UTC",
             language := "en", title := title,
             description := "Booked via API: " ++ title,
             status := "PENDING" } := by
  cases resp with
  | success id => simp [book_event, hce, hti, BookResult.sent]
  | httpError code excText body => simp [book_event, hce, hti, BookResult.sent]
  | networkError excText => simp [book_event, hce, hti, BookResult.sent]

/-- Shape of the booking result on an HTTP error response. -/
theorem book_event_http_shape (k tid start email title ex : String)
    (body : JsonBody) (c : Nat) (endt : String) (tidInt : Int)
    (hce : computeEndTime start = some endt)
    (hti : pyInt tid = some tidInt) :
    ∃ p, book_event (some k) (some tid) start email title
        (BookResponse.httpError c ex body) =
      BookResult.returns (bookHTTPErrorMsg c ex body) (some p) := by
  refine ⟨{ eventTypeId := tidInt, start := start, endTime := endt,
            name := attendeeName email, email := email, timeZone := "UTC",
            language := "en", title := title,
            description := "Booked via API: " ++ title,
            status := "PENDING" }, ?_⟩
  simp [book_event, hce, hti]

/-- C4 (amended): for every parseable start time whose 30-minute end stays
within the supported calendar (year at most 9999), the payload end time is
the rendering of the parsed start advanced by exactly 30 minutes
(1 800 000 000 microseconds) with the UTC offset unchanged, where the
rendering rewrites an explicit `+00:00` offset to `Z`; a parseable start time
whose end would overflow year 9999 is rejected with the invalid-start-time
message and no request is sent; in particular `2025-07-11T14:00:00Z` yields
`2025-07-11T14:30:00Z`. -/
theorem book_event_end_time_thirty_minutes (start : String) (dt r : PyDateTime)
    (hfi : fromisoformat (pyReplace start ("Z") ("+00:00")) = some dt)
    (hadd : addMinutes30 dt = some r) :
    computeEndTime start = some (pyReplace (isoformat r) ("+00:00") ("Z")) ∧
    naiveMicros r = naiveMicros dt + 30 * 60 * 1000000 ∧
    r.utcoffsetMinutes = dt.utcoffsetMinutes ∧
    instantMicros r = instantMicros dt + 30 * 60 * 1000000 ∧
    (∀ s2 : String, ∀ dt2 : PyDateTime,
      fromisoformat (pyReplace s2 ("Z") ("+00:00")) = some dt2 →
      addMinutes30 dt2 = none →
      computeEndTime s2 = none ∧
      ∀ k tid email title : String, ∀ resp : BookResponse,
        book_event (some k) (some tid) s2 email title resp =
          BookResult.returns ("\u274C Booking failed: Invalid start time format")
            none) ∧
    computeEndTime ("2025-07-11T14:00:00Z") = some ("2025-07-11T14:30:00Z") := by
  have hv := fromisoformat_valid _ dt hfi
  obtain ⟨h1, h2⟩ := addMinutes30_some_spec dt r hv hadd
  refine ⟨?_, ?_, h2, ?_, ?_, by decide⟩
  · unfold computeEndTime
    rw [hfi]
    simp [hadd]
  · omega
  · unfold instantMicros
    rw [h1, h2]
    push_cast
    ring
  · intro s2 dt2 h2fi h2add
    have hce : computeEndTime s2 = none := by
      unfold computeEndTime
      rw [h2fi]
      simp [h2add]
    refine ⟨hce, ?_⟩
    intro k tid email title resp
    simp [book_event, hce]

/-- Witness for the amended C4 at the concrete example start time. -/
theorem book_event_end_time_thirty_minutes_witness :
    computeEndTime ("2025-07-11T14:00:00Z") =
      some (pyReplace (isoformat ⟨2025, 7, 11, 14, 30, 0, 0, some 0⟩)
        ("+00:00") ("Z")) ∧
    naiveMicros ⟨2025, 7, 11, 14, 30, 0, 0, some 0⟩ =
      naiveMicros ⟨2025, 7, 11, 14, 0, 0, 0, some 0⟩ + 30 * 60 * 1000000 ∧
    computeEndTime ("2025-07-11T14:00:00Z") = some ("2025-07-11T14:30:00Z") := by
  have h := book_event_end_time_thirty_minutes ("2025-07-11T14:00:00Z")
    ⟨2025, 7, 11, 14, 0, 0, 0, some 0⟩ ⟨2025, 7, 11, 14, 30, 0, 0, some 0⟩
    (by decide) (by decide)
  exact ⟨h.1, h.2.1, h.2.2.2.2.2⟩

/-- C5: for booking, a 400 response whose message contains
`no_available_users_found_error` yields the fixed owner-busy string (the same
string for every attendee email and title, addressing the calendar owner as
"You"); a 400 without that substring yields the parsed message; 401 yields
the unauthorized message; 404 the event-type-not-found message; and any other
code the generic HTTP failure text. -/
theorem book_event_error_mapping (k tid start email title m ex : String)
    (body : JsonBody) (c : Nat)
    (hstart : (computeEndTime start).isSome = true)
    (htid : (pyInt tid).isSome = true) :
    (containsSubstr m ("no_available_users_found_error") = true →
      ∀ email2 title2 : String, ∃ p,
        book_event (some k) (some tid) start email2 title2
            (BookResponse.httpError 400 ex (JsonBody.parsed (some m))) =
          BookResult.returns ownerBusyMsg (some p)) ∧
    (containsSubstr m ("no_available_users_found_error") = false →
      ∃ p, book_event (some k) (some tid) start email title
          (BookResponse.httpError 400 ex (JsonBody.parsed (some m))) =
        BookResult.returns ("\u274C Booking failed: " ++ m) (some p)) ∧
    (∃ p, book_event (some k) (some tid) start email title
        (BookResponse.httpError 401 ex body) =
      BookResult.returns
        ("\u274C Booking failed: Invalid API key or unauthorized access")
        (some p)) ∧
    (∃ p, book_event (some k) (some tid) start email title
        (BookResponse.httpError 404 ex body) =
      BookResult.returns
        ("\u274C Booking failed: Event type not found. Check your CAL_EVENT_TYPE_ID")
        (some p)) ∧
    (c ∉ ([400, 401, 404] : List Nat) →
      ∃ p, book_event (some k) (some tid) start email title
          (BookResponse.httpError c ex body) =
        BookResult.returns
          ("\u274C Booking failed: HTTP " ++ toString c ++ " - " ++ ex)
          (some p)) := by
  cases hce : computeEndTime start with
  | none => rw [hce] at hstart; simp at hstart
  | some endt =>
  cases hti : pyInt tid with
  | none => rw [hti] at htid; simp at htid
  | some tidInt =>
  refine ⟨?_, ?_, ?_, ?_, ?_⟩
  · intro hsub email2 title2
    obtain ⟨p, hp⟩ := book_event_http_shape k tid start email2 title2 ex
      (JsonBody.parsed (some m)) 400 endt tidInt hce hti
    refine ⟨p, ?_⟩
    rw [hp]
    have hmsg : bookHTTPErrorMsg 400 ex (JsonBody.parsed (some m)) = ownerBusyMsg := by
      simp [bookHTTPErrorMsg, hsub]
    rw [hmsg]
  · intro hsub
    obtain ⟨p, hp⟩ := book_event_http_shape k tid start email title ex
      (JsonBody.parsed (some m)) 400 endt tidInt hce hti
    refine ⟨p, ?_⟩
    rw [hp]
    have hmsg : bookHTTPErrorMsg 400 ex (JsonBody.parsed (some m)) =
        "\u274C Booking failed: " ++ m := by
      simp [bookHTTPErrorMsg, hsub]
    rw [hmsg]
  · obtain ⟨p, hp⟩ := book_event_http_shape k tid start email title ex
      body 401 endt tidInt hce hti
    refine ⟨p, ?_⟩
    rw [hp]
    have hmsg : bookHTTPErrorMsg 401 ex body =
        "\u274C Booking failed: Invalid API key or unauthorized access" := by
      simp [bookHTTPErrorMsg]
    rw [hmsg]
  · obtain ⟨p, hp⟩ := book_event_http_shape k tid start email title ex
      body 404 endt tidInt hce hti
    refine ⟨p, ?_⟩
    rw [hp]
    have hmsg : bookHTTPErrorMsg 404 ex body =
        "\u274C Booking failed: Event type not found. Check your CAL_EVENT_TYPE_ID" := by
      simp [bookHTTPErrorMsg]
    rw [hmsg]
  · intro hc
    simp only [List.mem_cons, List.mem_singleton, not_or] at hc
    obtain ⟨hc400, hc401, hc404⟩ := hc
    obtain ⟨p, hp⟩ := book_event_http_shape k tid start email title ex
      body c endt tidInt hce hti
    refine ⟨p, ?_⟩
    rw [hp]
    have hmsg : bookHTTPErrorMsg c ex body =
        "\u274C Booking failed: HTTP " ++ toString c ++ " - " ++ ex := by
      simp [bookHTTPErrorMsg, hc400, hc401, hc404]
    rw [hmsg]

/-- Witness for C5 at a concrete 400 response carrying the special-cased
substring. -/
theorem book_event_error_mapping_witness :
    ∃ p, book_event (some ("k")) (some ("42")) ("2025-07-11T14:00:00Z")
        ("a@b.com") ("Sync")
        (BookResponse.httpError 400 ("err")
          (JsonBody.parsed (some ("no_available_users_found_error")))) =
      BookResult.returns ownerBusyMsg (some p) :=
  (book_event_error_mapping ("k") ("42") ("2025-07-11T14:00:00Z") ("a@b.com")
      ("Sync") ("no_available_users_found_error") ("err") JsonBody.parseFail 500
      (by decide) (by decide)).1 (by decide) ("a@b.com") ("Sync")

/-- C6: a booking identifier that does not parse as an integer (such as
`"abc"`) yields the distinct invalid-booking-id string with zero network
calls, and an identifier that parses as an integer is delegated to
`cancel_event` with that integer. -/
theorem cancel_calendar_booking_invalid_id (apiKey : Option String)
    (ident reason : String) (resp : CancelResponse) :
    (pyInt ident = none →
      cancel_calendar_booking apiKey ident reason resp =
        (CancelResult.returns ("\u274C Invalid booking ID: \x27" ++ ident ++
          "\x27. Please provide a valid numeric booking ID."), 0) ∧
      (cancel_calendar_booking apiKey ident reason resp).2 = 0) ∧
    (∀ n : Int, pyInt ident = some n →
      cancel_calendar_booking apiKey ident reason resp =
        cancel_event apiKey n reason resp) ∧
    pyInt ("abc") = none := by
  refine ⟨?_, ?_, by decide⟩
  · intro h
    constructor
    · simp [cancel_calendar_booking, h]
    · simp [cancel_calendar_booking, h]
  · intro n h
    simp [cancel_calendar_booking, h]

/-- Witness for C6 at the concrete identifier `"abc"`. -/
theorem cancel_calendar_booking_invalid_id_witness :
    cancel_calendar_booking (some ("k")) ("abc") ("r") CancelResponse.success =
      (CancelResult.returns ("\u274C Invalid booking ID: \x27" ++ "abc" ++
        "\x27. Please provide a valid numeric booking ID."), 0) ∧
    (cancel_calendar_booking (some ("k")) ("abc") ("r")
      CancelResponse.success).2 = 0 :=
  (cancel_calendar_booking_invalid_id (some ("k")) ("abc") ("r")
    CancelResponse.success).1 (by decide)

/-- C8 counterexample: at a current time of 2025-07-11T15:00:00Z the start
time 2025-07-11T14:00:00Z is parseable but not strictly after the current
time, yet `book_event` still sends the request to the remote service instead
of rejecting it. -/
theorem book_event_past_start_counterexample :
    fromisoformat (pyReplace ("2025-07-11T14:00:00Z") ("Z") ("+00:00")) =
      some ⟨2025, 7, 11, 14, 0, 0, 0, some 0⟩ ∧
    instantMicros ⟨2025, 7, 11, 14, 0, 0, 0, some 0⟩ <
      instantMicros ⟨2025, 7, 11, 15, 0, 0, 0, some 0⟩ ∧
    ((book_event (some ("k")) (some ("42")) ("2025-07-11T14:00:00Z"))
      ("a@b.com") ("Sync") (BookResponse.success (some 1))).sent.isSome =
      true := by
  refine ⟨by decide, by decide, by decide⟩

/-- C8 (amended): `book_event` performs no comparison with the current time:
for every parseable start time whose 30-minute end stays within the supported
calendar range, past or future, with a configured environment the request is
sent to the remote service carrying the given start time; a rejection before
sending happens only for an unparseable start or an end-time overflow, never
because the start is not after the current time. -/
theorem book_event_sends_without_time_check (k tid start email title : String)
    (resp : BookResponse) (dt r : PyDateTime) (n : Int)
    (hstart : fromisoformat (pyReplace start ("Z") ("+00:00")) = some dt)
    (hadd : addMinutes30 dt = some r)
    (htid : pyInt tid = some n) :
    ∃ p : BookingPayload,
      (book_event (some k) (some tid) start email title resp).sent = some p ∧
      p.start = start := by
  have hce : computeEndTime start =
      some (pyReplace (isoformat r) ("+00:00") ("Z")) := by
    unfold computeEndTime
    rw [hstart]
    simp [hadd]
  exact ⟨_, book_event_sent_payload k tid start email title resp _ n hce htid,
    rfl⟩

/-- Witness for the amended C8 at a start time far in the past. -/
theorem book_event_sends_without_time_check_witness :
    ∃ p : BookingPayload,
      (book_event (some ("k")) (some ("42")) ("2020-01-01T00:00:00Z")
        ("a@b.com") ("Old") (BookResponse.success (some 1))).sent = some p ∧
      p.start = "2020-01-01T00:00:00Z" :=
  book_event_sends_without_time_check ("k") ("42") ("2020-01-01T00:00:00Z")
    ("a@b.com") ("Old") (BookResponse.success (some 1))
    ⟨2020, 1, 1, 0, 0, 0, 0, some 0⟩ ⟨2020, 1, 1, 0, 30, 0, 0, some 0⟩ 42
    (by decide) (by decide) (by decide)

/-- C9: cancelling against a 404 response returns the failure string built
from the booking id, which contains both the booking id and the words
`not found`. -/
theorem cancel_event_404_message (k ex reason : String) (body : JsonBody)
    (id : Int) :
    (cancel_event (some k) id reason (CancelResponse.httpError 404 ex body)).1 =
      CancelResult.returns ("\u274C Cancellation failed: Booking " ++
        toString id ++ " not found") ∧
    containsSubstr ("\u274C Cancellation failed: Booking " ++ toString id ++
      " not found") (toString id) = true ∧
    containsSubstr ("\u274C Cancellation failed: Booking " ++ toString id ++
      " not found") ("not found") = true := by
  refine ⟨?_, ?_, ?_⟩
  · simp [cancel_event, cancelHTTPErrorMsg]
  · apply containsSubstr_of_data _ _ (("\u274C Cancellation failed: Booking " :
      String).data) ((" not found" : String).data)
    simp [String.data_append]
  · apply containsSubstr_of_data _ _
      (("\u274C Cancellation failed: Booking " : String).data ++
        (toString id).data ++ [' ']) ([])
    have hsp : (" not found" : String).data =
        [' '] ++ ("not found" : String).data := by decide
    simp only [String.data_append, hsp, List.append_nil, List.append_assoc,
      List.singleton_append, List.cons_append, List.nil_append]

end CalAgent
